import Mathlib

/-
Shallow embedding of the WinLLPlay low-latency video player
(src/Win/WinLLPlay/src/main.cpp).

The program is a single main loop; we embed its pure decision logic:
  * command-line parsing (parse_args, lines 41-53),
  * the frame-pacing gate duplicated at lines 269-279 and 301-311,
  * decoder selection with CUDA fallback (lines 104-156),
  * the outer driver step: read / stream filter / submit (lines 227-231),
  * the per-decoded-frame processing step: dimension-change handling,
    hardware-frame realization, the NV12 fast path and the swscale
    slow path (lines 238-325).
External effects (SDL, FFmpeg, the wall clock) are supplied as an
explicit environment of call results, and the observable calls the code
makes are recorded as a list of events.
-/

/-- Command-line configuration, mirroring `struct Args` with its member
initializers (lines 25-30). -/
structure Args where
  url : String := "tcp://127.0.0.1:5000?tcp_nodelay=1"
  prefer_gpu : Bool := true
  target_fps : Int := 0
  drop_when_ahead : Bool := true
deriving DecidableEq

/-- Loop body of `parse_args` (lines 41-53): walks the argument vector,
updating the defaults.  `stoi` models `std::stoi` applied to the value
token of `--fps`.  Returning `none` models the `std::nullopt` returns
(help requested, option missing its value, or unknown argument). -/
def parseArgsLoop (stoi : String → Int) : List String → Args → Option Args
  | [], a => some a
  | v :: rest, a =>
    if v = "--help" ∨ v = "-h" then none
    else if v = "--cpu" then parseArgsLoop stoi rest { a with prefer_gpu := false }
    else if v = "--no-drop" then parseArgsLoop stoi rest { a with drop_when_ahead := false }
    else
      match rest with
      | u :: rest2 =>
        if v = "--url" then parseArgsLoop stoi rest2 { a with url := u }
        else if v = "--fps" then parseArgsLoop stoi rest2 { a with target_fps := stoi u }
        else none
      | [] => none

/-- `parse_args` (lines 41-53): the argument list excludes `argv[0]`. -/
def parse_args (stoi : String → Int) (argv : List String) : Option Args :=
  parseArgsLoop stoi argv {}

/-- `target_interval_us` (line 213):
`(args.target_fps > 0) ? (1e6 / args.target_fps) : 0.0`, idealized to an
exact rational. -/
def targetInterval (fps : Int) : ℚ :=
  if fps > 0 then 1000000 / (fps : ℚ) else 0

/-- Result of one pacing decision: whether the picture is presented, and
how many milliseconds `SDL_Delay` was given (0 when no delay runs). -/
structure Gate where
  present : Bool
  wait_ms : Int
deriving DecidableEq

/-- The pacing block duplicated at lines 269-279 and 301-311:
`do_present` starts `true`; with a positive target fps and
`elapsed < target_interval_us`, either drop (`drop_when_ahead`) or
compute `wait_ms = (int)((target_interval_us - elapsed)/1000.0)` and
call `SDL_Delay(wait_ms)` only when `0 < wait_ms < 10`.  The C cast
truncates; the operand is positive here, so it is the floor. -/
def pacingGate (fps : Int) (drop : Bool) (last now : Int) : Gate :=
  if fps > 0 then
    let elapsed : ℚ := ((now - last : Int) : ℚ)
    if elapsed < targetInterval fps then
      if drop then ⟨false, 0⟩
      else
        let w : Int := ⌊(targetInterval fps - elapsed) / 1000⌋
        if 0 < w ∧ w < 10 then ⟨true, w⟩ else ⟨true, 0⟩
    else ⟨true, 0⟩
  else ⟨true, 0⟩

/-- The presentation step around the gate (lines 280-281 / 312-313): when
the gate presents, `last_present_us = now_us()` is a fresh clock reading
`pt`; when it drops, the timestamp is left unchanged.  Returns
(presented?, new last-presentation timestamp). -/
def gateStep (fps : Int) (drop : Bool) (last now pt : Int) : Bool × Int :=
  if (pacingGate fps drop last now).present then (true, pt) else (false, last)

/-- Pixel-layout tags occurring in the loop: `AV_PIX_FMT_CUDA`
(accelerator-resident), `AV_PIX_FMT_NV12` (semi-planar 4:2:0),
`AV_PIX_FMT_YUV420P` (planar 4:2:0), and any other format. -/
inductive PixFmt
  | cuda
  | nv12
  | yuv420p
  | other (tag : Nat)
deriving DecidableEq

/-- One data plane of a frame: `data[i]` (the bytes) with `linesize[i]`. -/
structure Plane where
  bytes : List Nat
  pitch : Int
deriving DecidableEq

/-- An `AVFrame` as the loop observes it: dimensions, format tag, and the
data planes with their strides. -/
structure Frame where
  width : Int
  height : Int
  format : PixFmt
  data : List Plane
deriving DecidableEq

/-- The streaming NV12 texture `texNV12`: creation dimensions, plus the
(Y, UV) planes last written by `SDL_UpdateNVTexture` (`none` before any
update). -/
structure NVTexData where
  w : Int
  h : Int
  content : Option (Plane × Plane)
deriving DecidableEq

/-- The streaming IYUV texture `texI420`: creation dimensions, plus the
source frame whose conversion `SDL_UpdateYUVTexture` last wrote into it
(`none` before any update). -/
structure I420TexData where
  w : Int
  h : Int
  content : Option Frame
deriving DecidableEq

/-- Key of the cached `SwsContext` as passed to `sws_getCachedContext`
(line 294): source dims and format, destination dims and
`AV_PIX_FMT_YUV420P`. -/
structure SwsCtxKey where
  srcW : Int
  srcH : Int
  srcFmt : PixFmt
  dstW : Int
  dstH : Int
  dstFmt : PixFmt
deriving DecidableEq

/-- Mutable loop state across frames: current dimensions `W`/`H`, the two
lazily created textures, the cached swscale context, the reusable
`yuv420p` staging frame (its allocated dimensions, `none` after a failed
`av_frame_get_buffer`), the source frame the staging buffer currently
holds converted, and `last_present_us`. -/
structure PState where
  W : Int
  H : Int
  texNV12 : Option NVTexData
  texI420 : Option I420TexData
  sws : Option SwsCtxKey
  yuvBuf : Option (Int × Int)
  yuvContent : Option Frame
  last_present_us : Int
deriving DecidableEq

/-- Results of the external calls one loop iteration makes, supplied as
an oracle: success of `av_hwframe_transfer_data` and the transferred
frame, success of the SDL texture allocations and of
`SDL_UpdateNVTexture`, success of `sws_getCachedContext` /
`av_frame_get_buffer` / `sws_scale`, and the four `now_us()` readings
(fast-path gate check, fast-path present, slow-path gate check,
slow-path present). -/
structure Env where
  transfer_ok : Bool
  sw_frame : Frame
  alloc_nv12_ok : Bool
  alloc_i420_ok : Bool
  alloc_yuv_ok : Bool
  update_nv_ok : Bool
  sws_get_ok : Bool
  sws_scale_ok : Bool
  now1 : Int
  pt1 : Int
  now2 : Int
  pt2 : Int
deriving DecidableEq

/-- Observable calls a loop iteration makes, in order. -/
inductive Ev
  | destroyNV12
  | createNV12 (w h : Int)
  | destroyI420
  | createI420 (w h : Int)
  | freeSws
  | getSws (k : SwsCtxKey)
  | hwTransfer (ok : Bool)
  | updateNV (y uv : Plane)
  | swsRun (src : Frame)
  | updateYUV
  | renderPresent
  | delay (ms : Int)
  | logErr (msg : String)
deriving DecidableEq

/-- Whether the iteration falls to the next `avcodec_receive_frame`
(`next`) or executes `break` out of the drain loop (`brk`). -/
inductive Outcome
  | next
  | brk
deriving DecidableEq

/-- Dimension-change block (lines 238-245): when the frame's dimensions
differ from `W`/`H` and are positive, adopt the new dimensions, destroy
and recreate each texture that currently exists (`alloc_tex_nv12` /
`alloc_tex_i420`, return values ignored here), reallocate the `yuv420p`
staging buffer, and free the cached `SwsContext`. -/
def dimChange (env : Env) (s0 : PState) (f : Frame) : PState × List Ev :=
  if (f.width ≠ s0.W ∨ f.height ≠ s0.H) ∧ 0 < f.width ∧ 0 < f.height then
    let evN : List Ev :=
      match s0.texNV12 with
      | some _ => Ev.destroyNV12 :: (if env.alloc_nv12_ok then [Ev.createNV12 f.width f.height] else [])
      | none => []
    let tN : Option NVTexData :=
      match s0.texNV12 with
      | some _ => if env.alloc_nv12_ok then some ⟨f.width, f.height, none⟩ else none
      | none => none
    let evI : List Ev :=
      match s0.texI420 with
      | some _ => Ev.destroyI420 :: (if env.alloc_i420_ok then [Ev.createI420 f.width f.height] else [])
      | none => []
    let tI : Option I420TexData :=
      match s0.texI420 with
      | some _ => if env.alloc_i420_ok then some ⟨f.width, f.height, none⟩ else none
      | none => none
    let yb : Option (Int × Int) := if env.alloc_yuv_ok then some (f.width, f.height) else none
    let evS : List Ev := if s0.sws.isSome then [Ev.freeSws] else []
    ({ s0 with W := f.width, H := f.height, texNV12 := tN, texI420 := tI,
               sws := none, yuvBuf := yb, yuvContent := none },
     evN ++ (evI ++ (([] : List Ev) ++ evS)))
  else (s0, [])

/-- Picture realization (lines 247-259): an accelerator-resident frame
(`AV_PIX_FMT_CUDA` on the CUDA path) is transferred to the reusable host
frame `sw_frame`; `none` models transfer failure (the picture is
dropped); a host-resident frame passes through unchanged. -/
def realize (want_cuda : Bool) (transfer_ok : Bool) (sw_frame : Frame) (f : Frame) :
    Option (Frame × List Ev) :=
  if want_cuda ∧ f.format = PixFmt.cuda then
    if transfer_ok then some (sw_frame, [Ev.hwTransfer true]) else none
  else some (f, [])

/-- Result of the NV12 fast path: `brk` models the `break` on texture
allocation failure; `done` carries the state, events, and the `rendered`
flag. -/
inductive FastRes
  | brk (s : PState) (ev : List Ev)
  | done (s : PState) (ev : List Ev) (rendered : Bool)
deriving DecidableEq

/-- Fast-path body after the texture exists (lines 266-287): update the
NV12 texture from `src->data[0..1]`, then run the pacing gate; on
present, take a fresh clock reading for `last_present_us` and render. -/
def fastPathUpdate (args : Args) (env : Env) (s : PState) (ev : List Ev) (src : Frame) :
    FastRes :=
  if env.update_nv_ok then
    let y := src.data.getD 0 ⟨[], 0⟩
    let uv := src.data.getD 1 ⟨[], 0⟩
    let s1 : PState :=
      { s with texNV12 := s.texNV12.map (fun t => { t with content := some (y, uv) }) }
    let ev1 := ev ++ [Ev.updateNV y uv]
    let g := pacingGate args.target_fps args.drop_when_ahead s1.last_present_us env.now1
    let ev2 := ev1 ++ (if g.wait_ms ≠ 0 then [Ev.delay g.wait_ms] else [])
    if g.present then
      FastRes.done { s1 with last_present_us := env.pt1 } (ev2 ++ [Ev.renderPresent]) true
    else
      FastRes.done s1 ev2 false
  else
    FastRes.done s ev false

/-- NV12 fast path (lines 264-288): only for `AV_PIX_FMT_NV12` sources;
lazily create `texNV12` (breaking out of the drain loop on allocation
failure, line 265). -/
def fastPath (args : Args) (env : Env) (s : PState) (src : Frame) : FastRes :=
  if src.format = PixFmt.nv12 then
    match s.texNV12 with
    | some _ => fastPathUpdate args env s [] src
    | none =>
      if env.alloc_nv12_ok then
        fastPathUpdate args env { s with texNV12 := some ⟨s.W, s.H, none⟩ }
          [Ev.createNV12 s.W s.H] src
      else FastRes.brk s [Ev.logErr "NV12 texture alloc failed"]
  else FastRes.done s [] false

/-- Result of the conversion slow path: `brk` models the `break` on
texture-allocation or `sws_getCachedContext` failure. -/
inductive SlowRes
  | brk (s : PState) (ev : List Ev)
  | done (s : PState) (ev : List Ev)
deriving DecidableEq

/-- Slow-path tail (lines 300-322): run `sws_scale` into the `yuv420p`
staging frame; on success run the pacing gate and, on present, take a
fresh clock reading, update the IYUV texture and render. -/
def slowPathScale (args : Args) (env : Env) (s : PState) (ev : List Ev) (src : Frame) :
    SlowRes :=
  if env.sws_scale_ok then
    let s1 : PState := { s with yuvContent := some src }
    let ev1 := ev ++ [Ev.swsRun src]
    let g := pacingGate args.target_fps args.drop_when_ahead s1.last_present_us env.now2
    let ev2 := ev1 ++ (if g.wait_ms ≠ 0 then [Ev.delay g.wait_ms] else [])
    if g.present then
      SlowRes.done
        { s1 with last_present_us := env.pt2,
                  texI420 := s1.texI420.map (fun t => { t with content := some src }) }
        (ev2 ++ [Ev.updateYUV, Ev.renderPresent])
    else
      SlowRes.done s1 ev2
  else
    SlowRes.done s ev

/-- Slow-path middle (lines 293-297): obtain the cached `SwsContext`
keyed on the current dimensions and source format, targeting planar
YUV420P (breaking out of the drain loop on failure). -/
def slowPathSws (args : Args) (env : Env) (s : PState) (ev : List Ev) (src : Frame) :
    SlowRes :=
  match s.sws with
  | some _ => slowPathScale args env s ev src
  | none =>
    if env.sws_get_ok then
      let k : SwsCtxKey := ⟨s.W, s.H, src.format, s.W, s.H, PixFmt.yuv420p⟩
      slowPathScale args env { s with sws := some k } (ev ++ [Ev.getSws k]) src
    else SlowRes.brk s (ev ++ [Ev.logErr "sws_getCachedContext failed"])

/-- Conversion slow path (lines 291-323), entered whenever the fast path
did not render: lazily create `texI420` (breaking out of the drain loop
on allocation failure, line 292). -/
def slowPath (args : Args) (env : Env) (s : PState) (src : Frame) : SlowRes :=
  match s.texI420 with
  | some _ => slowPathSws args env s [] src
  | none =>
    if env.alloc_i420_ok then
      slowPathSws args env { s with texI420 := some ⟨s.W, s.H, none⟩ }
        [Ev.createI420 s.W s.H] src
    else SlowRes.brk s [Ev.logErr "I420 texture alloc failed"]

/-- One full iteration of the inner drain loop on a decoded frame
(lines 238-325): dimension-change handling, realization (a failed
hardware transfer drops the picture and continues with the next one,
lines 253-256), then the fast path and, when it did not render, the slow
path. -/
def processFrame (args : Args) (want_cuda : Bool) (env : Env) (s0 : PState) (f : Frame) :
    PState × List Ev × Outcome :=
  let d := dimChange env s0 f
  match realize want_cuda env.transfer_ok env.sw_frame f with
  | none => (d.1, d.2 ++ [Ev.hwTransfer false], Outcome.next)
  | some (src, ev2) =>
    match fastPath args env d.1 src with
    | FastRes.brk s ev => (s, d.2 ++ (ev2 ++ ev), Outcome.brk)
    | FastRes.done s ev true => (s, d.2 ++ (ev2 ++ ev), Outcome.next)
    | FastRes.done s ev false =>
      match slowPath args env s src with
      | SlowRes.brk s2 ev3 => (s2, d.2 ++ (ev2 ++ (ev ++ ev3)), Outcome.brk)
      | SlowRes.done s2 ev3 => (s2, d.2 ++ (ev2 ++ (ev ++ ev3)), Outcome.next)

/-- A compressed access unit as the outer loop sees it: the packet's
stream index plus opaque payload. -/
structure CompressedUnit where
  stream_index : Int
  payload : List Nat
deriving DecidableEq

/-- Result of `av_read_frame`: failure, or a packet. -/
inductive ReadResult
  | err
  | ok (u : CompressedUnit)
deriving DecidableEq

/-- What one outer-loop iteration head does with the packet
(lines 227-231). -/
inductive OuterAction
  | idleRetry
  | skippedWrongStream
  | rejectedReleased
  | submitted
deriving DecidableEq

/-- Outer-loop packet handling (lines 227-231): a failed read idles and
retries; a packet of another stream is unreferenced and skipped; a
rejected `avcodec_send_packet` unreferences the packet and continues; an
accepted submit also unreferences it before draining.  The returned list
is the set of units the driver still holds after the step: the packet
buffer is unreferenced on every path, so it is always empty. -/
def outerStep (vstream : Int) (r : ReadResult) (send_ok : Bool) :
    OuterAction × List CompressedUnit :=
  match r with
  | ReadResult.err => (OuterAction.idleRetry, [])
  | ReadResult.ok u =>
    if u.stream_index ≠ vstream then (OuterAction.skippedWrongStream, [])
    else if send_ok then (OuterAction.submitted, [])
    else (OuterAction.rejectedReleased, [])

/-- The two decoding engines the selection can end with: the
hardware-specific `h264_cuvid` or the generic software decoder for the
stream's codec id. -/
inductive Codec
  | h264_cuvid
  | h264_sw
deriving DecidableEq

/-- External facts decoder selection depends on: whether
`avcodec_find_decoder_by_name("h264_cuvid")` finds the decoder, whether
`avcodec_find_decoder` finds the generic one, and whether
`av_hwdevice_ctx_create(AV_HWDEVICE_TYPE_CUDA)` succeeds. -/
structure HwEnv where
  cuvid_found : Bool
  sw_found : Bool
  hwdev_ok : Bool
deriving DecidableEq

/-- Outcome of decoder selection: the chosen codec, the final
`want_cuda` flag, and the error-stream messages emitted. -/
structure SelectResult where
  codec : Codec
  want_cuda : Bool
  logs : List String
deriving DecidableEq

/-- Decoder selection and CUDA device acquisition (lines 104-149):
prefer `h264_cuvid` when `prefer_gpu`; otherwise (or when absent) the
generic decoder, fatal (`none`) when even that is missing; then, still
under the initial preference, try to create the CUDA device context,
logging and clearing `want_cuda` on failure.  Note the chosen codec is
not revisited after a device-context failure. -/
def selectDecoder (prefer_gpu : Bool) (env : HwEnv) : Option SelectResult :=
  let want_cuda := prefer_gpu
  let codec0 : Option Codec :=
    if want_cuda ∧ env.cuvid_found then some Codec.h264_cuvid else none
  let codec1 : Option Codec :=
    match codec0 with
    | some c => some c
    | none => if env.sw_found then some Codec.h264_sw else none
  match codec1 with
  | none => none
  | some c =>
    if want_cuda then
      if env.hwdev_ok then some ⟨c, true, []⟩
      else some ⟨c, false, ["[HW] CUDA hwdevice create failed, CPU fallback."]⟩
    else some ⟨c, false, []⟩

/-- Fixture: a host-resident NV12 picture, 1280x720, with two planes. -/
def fNV : Frame := ⟨1280, 720, PixFmt.nv12, [⟨[10, 20, 30, 40], 1280⟩, ⟨[50, 60], 1280⟩]⟩

/-- Fixture: an accelerator-resident picture, 1280x720. -/
def fCuda : Frame := ⟨1280, 720, PixFmt.cuda, []⟩

/-- Fixture: configuration with `--fps 30` (drop-when-ahead left at its
default of `true`). -/
def args30 : Args := { target_fps := 30 }

/-- Fixture: the default configuration (free-run). -/
def args0 : Args := {}

/-- Fixture: loop state at 1280x720 with no textures or context yet and
`last_present_us = 0`. -/
def sBase : PState := ⟨1280, 720, none, none, none, some (1280, 720), none, 0⟩

/-- Fixture: loop state at 1920x1080 with both textures and a cached
swscale context allocated. -/
def sTex : PState :=
  ⟨1920, 1080, some ⟨1920, 1080, none⟩, some ⟨1920, 1080, none⟩,
    some ⟨1920, 1080, PixFmt.nv12, 1920, 1080, PixFmt.yuv420p⟩, some (1920, 1080), none, 0⟩

/-- Fixture: environment where every external call succeeds and the
clock reads 40000/40001/40002/40003 µs. -/
def envOK : Env := ⟨true, fNV, true, true, true, true, true, true, 40000, 40001, 40002, 40003⟩

/-- Fixture: like `envOK` but the device-to-host transfer fails. -/
def envXfail : Env := ⟨false, fNV, true, true, true, true, true, true, 40000, 40001, 40002, 40003⟩

/-- Fixture: all calls succeed and both gate checks read the clock about
5000 µs after the last presentation. -/
def envDrop : Env := ⟨true, fNV, true, true, true, true, true, true, 5000, 5001, 5002, 5003⟩

/-- Fixture: all calls succeed; the fast-path gate reads 5000 µs and the
slow-path gate reads 40000 µs. -/
def envDropThen : Env := ⟨true, fNV, true, true, true, true, true, true, 5000, 5001, 40000, 40001⟩

/-- C1: with a positive target fps (target interval `T = 1e6/fps`) and
drop-when-ahead set, a realized picture with elapsed time `≥ T` since
the last presentation is presented and the last-presentation timestamp
is set to the fresh clock reading `pt`; with elapsed `< T` the picture
is dropped, not presented, and the timestamp is left unchanged. -/
theorem C1_pacing_drop_when_ahead (fps last now pt : Int) (hfps : 0 < fps) :
    (targetInterval fps ≤ ((now - last : Int) : ℚ) →
        pacingGate fps true last now = ⟨true, 0⟩ ∧
        gateStep fps true last now pt = (true, pt)) ∧
    (((now - last : Int) : ℚ) < targetInterval fps →
        pacingGate fps true last now = ⟨false, 0⟩ ∧
        gateStep fps true last now pt = (false, last)) := by
  constructor
  · intro h
    have h2 : ¬ (((now - last : Int) : ℚ) < targetInterval fps) := not_lt.mpr h
    push_cast at h2
    simp [pacingGate, gateStep, hfps, h2]
  · intro h
    push_cast at h
    simp [pacingGate, gateStep, hfps, h]

/-- C1 witness: at 30 fps (interval 33333.3 µs) a picture 40000 µs after
the last presentation is presented with the timestamp updated, and one
5000 µs after it is dropped with the timestamp unchanged. -/
theorem C1_pacing_drop_when_ahead_witness :
    gateStep 30 true 0 40000 40123 = (true, 40123) ∧
    gateStep 30 true 0 5000 5000 = (false, 0) := by
  constructor
  · exact ((C1_pacing_drop_when_ahead 30 0 40000 40123 (by norm_num)).1
      (by norm_num [targetInterval])).2
  · exact ((C1_pacing_drop_when_ahead 30 0 5000 5000 (by norm_num)).2
      (by norm_num [targetInterval])).2

/-- C4 counterexample: at 10 fps with drop-when-ahead unset, a picture
arriving 5000 µs after the last presentation has elapsed < target
interval (deficit 95 ms), yet the gate performs no sleep at all
(`wait_ms = 0`, because `wait_ms < 10` fails), contradicting "sleeps for
the remaining deficit capped at a short bound". -/
theorem C4_counterexample :
    (((5000 - 0 : Int) : ℚ) < targetInterval 10) ∧
    pacingGate 10 false 0 5000 = ⟨true, 0⟩ := by
  constructor
  · norm_num [targetInterval]
  · norm_num [pacingGate, targetInterval]

/-- C4 (amended): with a positive target fps, drop-when-ahead unset and
elapsed < target interval, the gate always presents; it sleeps only when
the deficit truncated to whole milliseconds is strictly between 0 and
10, in which case it sleeps exactly that truncated amount, and otherwise
it does not sleep at all. -/
theorem C4_no_drop_waits_then_presents (fps last now : Int) (hfps : 0 < fps)
    (hlt : ((now - last : Int) : ℚ) < targetInterval fps) :
    (pacingGate fps false last now).present = true ∧
    (pacingGate fps false last now).wait_ms =
      (if 0 < ⌊(targetInterval fps - ((now - last : Int) : ℚ)) / 1000⌋ ∧
          ⌊(targetInterval fps - ((now - last : Int) : ℚ)) / 1000⌋ < 10 then
        ⌊(targetInterval fps - ((now - last : Int) : ℚ)) / 1000⌋
      else 0) := by
  simp only [pacingGate, hfps, if_true, gt_iff_lt, hlt, if_pos, Bool.false_eq_true,
    if_false]
  split <;> simp

/-- C4 witness: at 30 fps, a picture 30000 µs after the last
presentation (deficit 3333 µs) sleeps 3 ms and presents. -/
theorem C4_no_drop_waits_then_presents_witness :
    (pacingGate 30 false 0 30000).present = true ∧
    (pacingGate 30 false 0 30000).wait_ms = 3 := by
  obtain ⟨h1, h2⟩ := C4_no_drop_waits_then_presents 30 0 30000 (by norm_num)
    (by norm_num [targetInterval])
  refine ⟨h1, ?_⟩
  rw [h2]
  norm_num [targetInterval]

/-- C7: when the configured target interval is zero (free-run), the gate
presents every realized picture, with no drop and no wait. -/
theorem C7_free_run (fps last now : Int) (drop : Bool)
    (h : targetInterval fps = 0) :
    pacingGate fps drop last now = ⟨true, 0⟩ := by
  have hfps : ¬ fps > 0 := by
    intro hpos
    rw [targetInterval, if_pos hpos] at h
    rcases div_eq_zero_iff.mp h with h1 | h1
    · norm_num at h1
    · exact Int.cast_ne_zero.mpr (by omega) h1
  simp [pacingGate, hfps]

/-- C7 witness: with the default fps of 0 the interval is zero and an
arbitrary picture is presented without waiting. -/
theorem C7_free_run_witness :
    pacingGate 0 true 12345 12346 = ⟨true, 0⟩ :=
  C7_free_run 0 12345 12346 true (by norm_num [targetInterval])

/-- C10: argument parsing accepts any integer for `--fps`; the target
interval is zero for any non-positive fps; and for every negative fps
both pacing checks behave exactly as in free-run mode: the gate always
presents immediately. -/
theorem C10_negative_fps_free_run (stoi : String → Int) (s : String) (fps : Int)
    (hfps : fps < 0) :
    parse_args stoi ["--fps", s] = some { target_fps := stoi s } ∧
    targetInterval fps = 0 ∧
    (∀ drop last now, pacingGate fps drop last now = pacingGate 0 drop last now) ∧
    (∀ drop last now pt, gateStep fps drop last now pt = (true, pt)) := by
  have hnp : ¬ fps > 0 := by omega
  refine ⟨rfl, by simp [targetInterval, hnp], ?_, ?_⟩
  · intro drop last now
    simp [pacingGate, hnp]
  · intro drop last now pt
    simp [gateStep, pacingGate, hnp]

/-- C10 witness: `--fps -5` parses to a configuration with
`target_fps = -5`, whose interval is zero and whose gate free-runs. -/
theorem C10_negative_fps_free_run_witness :
    parse_args (fun _ => (-5 : Int)) ["--fps", "-5"] = some { target_fps := -5 } ∧
    targetInterval (-5) = 0 ∧
    pacingGate (-5) true 0 0 = pacingGate 0 true 0 0 ∧
    gateStep (-5) true 0 0 77 = (true, 77) := by
  obtain ⟨h1, h2, h3, h4⟩ :=
    C10_negative_fps_free_run (fun _ => (-5 : Int)) "-5" (-5) (by norm_num)
  exact ⟨h1, h2, h3 true 0 0, h4 true 0 0 77⟩

/-- C2 (code evidence): first, with hardware preferred, `h264_cuvid`
found and CUDA device-context creation failing, the selection logs "CPU
fallback" but keeps `h264_cuvid` as the decoding engine — it does not
fall back to the generic software decoder; second, when the hardware
decoder is not found (device creation succeeding), the generic software
decoder is chosen but no degradation is logged and `want_cuda` stays
set. -/
theorem C2_hw_acquisition_divergence :
    selectDecoder true ⟨true, true, false⟩ =
      some ⟨Codec.h264_cuvid, false,
        ["[HW] CUDA hwdevice create failed, CPU fallback."]⟩ ∧
    selectDecoder true ⟨false, true, true⟩ = some ⟨Codec.h264_sw, true, []⟩ :=
  ⟨rfl, rfl⟩

/-- C8: a compressed unit of the selected stream whose submission is
rejected is released — the action is `rejectedReleased` and the driver
retains no unit — and on every path of the outer step the set of
retained (pending) units is empty, so the pending count never grows. -/
theorem C8_rejected_unit_released (vstream : Int) (u : CompressedUnit)
    (hstream : u.stream_index = vstream) :
    outerStep vstream (ReadResult.ok u) false = (OuterAction.rejectedReleased, []) ∧
    (∀ r send_ok, (outerStep vstream r send_ok).2.length = 0) := by
  constructor
  · simp [outerStep, hstream]
  · intro r send_ok
    cases r with
    | err => rfl
    | ok u2 =>
      by_cases h1 : u2.stream_index ≠ vstream
      · simp [outerStep, h1]
      · by_cases h2 : send_ok <;> simp [outerStep, h1, h2]

/-- C8 witness: a unit of stream 0 rejected by the engine is released
with nothing retained. -/
theorem C8_rejected_unit_released_witness :
    outerStep 0 (ReadResult.ok ⟨0, [1, 2, 3]⟩) false =
      (OuterAction.rejectedReleased, []) :=
  (C8_rejected_unit_released 0 ⟨0, [1, 2, 3]⟩ rfl).1

/-- Helper: the dimension-change block emits only surface-management
events — never a present, a texture update, or a conversion run. -/
theorem dimChange_events_shape (env : Env) (s0 : PState) (f : Frame) :
    Ev.renderPresent ∉ (dimChange env s0 f).2 ∧
    (∀ y uv, Ev.updateNV y uv ∉ (dimChange env s0 f).2) ∧
    (∀ g, Ev.swsRun g ∉ (dimChange env s0 f).2) := by
  unfold dimChange
  split
  · cases hN : s0.texNV12 <;> cases hI : s0.texI420 <;>
      by_cases hA : env.alloc_nv12_ok = true <;> by_cases hB : env.alloc_i420_ok = true <;>
      by_cases hS : s0.sws.isSome = true <;>
      simp [hN, hI, hA, hB, hS]
  · simp

/-- C6: an accelerator-resident (CUDA) picture triggers a single
device-to-host transfer attempt into the reusable host frame `sw_frame`;
on failure the picture is dropped without retry — no present, no texture
update, no conversion — and the iteration continues with the next
decoded picture; on success the realized picture is the transferred host
frame; a host-resident picture passes through unchanged with no
transfer. -/
theorem C6_realization (args : Args) (env : Env) (s0 : PState) (f : Frame) :
    (f.format = PixFmt.cuda → env.transfer_ok = false →
        processFrame args true env s0 f =
          ((dimChange env s0 f).1, (dimChange env s0 f).2 ++ [Ev.hwTransfer false],
            Outcome.next) ∧
        Ev.renderPresent ∉ (processFrame args true env s0 f).2.1 ∧
        (∀ y uv, Ev.updateNV y uv ∉ (processFrame args true env s0 f).2.1) ∧
        (∀ g, Ev.swsRun g ∉ (processFrame args true env s0 f).2.1)) ∧
    (f.format = PixFmt.cuda → env.transfer_ok = true →
        realize true env.transfer_ok env.sw_frame f =
          some (env.sw_frame, [Ev.hwTransfer true])) ∧
    (f.format ≠ PixFmt.cuda →
        realize true env.transfer_ok env.sw_frame f = some (f, [])) := by
  refine ⟨?_, ?_, ?_⟩
  · intro hfmt htr
    have hre : realize true env.transfer_ok env.sw_frame f = none := by
      simp [realize, hfmt, htr]
    have hp : processFrame args true env s0 f =
        ((dimChange env s0 f).1, (dimChange env s0 f).2 ++ [Ev.hwTransfer false],
          Outcome.next) := by
      simp [processFrame, hre]
    obtain ⟨e1, e2, e3⟩ := dimChange_events_shape env s0 f
    refine ⟨hp, ?_, ?_, ?_⟩
    · simp [hp, List.mem_append, e1]
    · intro y uv
      simp [hp, List.mem_append, e2 y uv]
    · intro g
      simp [hp, List.mem_append, e3 g]
  · intro hfmt htr
    simp [realize, hfmt, htr]
  · intro hfmt
    simp [realize, hfmt]

/-- C6 witness: a CUDA picture with a failing transfer is dropped and
the loop proceeds; a host-resident NV12 picture is realized unchanged. -/
theorem C6_realization_witness :
    processFrame args30 true envXfail sBase fCuda =
      (sBase, [Ev.hwTransfer false], Outcome.next) ∧
    realize true envOK.transfer_ok envOK.sw_frame fNV = some (fNV, []) := by
  have h1 := (C6_realization args30 envXfail sBase fCuda).1 rfl rfl
  have h2 := (C6_realization args30 envOK sBase fNV).2.2 (by decide)
  refine ⟨?_, h2⟩
  have hd : dimChange envXfail sBase fCuda = (sBase, []) := by
    simp [dimChange, sBase, fCuda]
  rw [h1.1, hd]
  rfl

/-- Helper: the events of one frame-processing iteration start with the
dimension-change block's events, i.e. dimension handling happens before
the picture is processed further. -/
theorem processFrame_events_start_with_dimChange (args : Args) (wc : Bool) (env : Env)
    (s0 : PState) (f : Frame) :
    ∃ rest, (processFrame args wc env s0 f).2.1 = (dimChange env s0 f).2 ++ rest := by
  simp only [processFrame]
  split
  · exact ⟨[Ev.hwTransfer false], rfl⟩
  · split
    · exact ⟨_, rfl⟩
    · exact ⟨_, rfl⟩
    · split
      · exact ⟨_, rfl⟩
      · exact ⟨_, rfl⟩

/-- C3: on a decoded picture with positive dimensions differing from the
last-seen ones, the state adopts the new dimensions; each
currently-allocated texture is destroyed and recreated at the new
dimensions; the cached conversion context is invalidated (freed when
present) together with the staging buffer's content; every surface still
allocated afterwards has exactly the picture's dimensions; and all this
precedes any further processing of the picture. -/
theorem C3_dimension_change (args : Args) (wc : Bool) (env : Env) (s0 : PState) (f : Frame)
    (hw : 0 < f.width) (hh : 0 < f.height)
    (hne : f.width ≠ s0.W ∨ f.height ≠ s0.H)
    (hN : env.alloc_nv12_ok = true) (hI : env.alloc_i420_ok = true) :
    (dimChange env s0 f).1.W = f.width ∧
    (dimChange env s0 f).1.H = f.height ∧
    (dimChange env s0 f).1.sws = none ∧
    (dimChange env s0 f).1.yuvContent = none ∧
    (s0.texNV12.isSome = true →
        Ev.destroyNV12 ∈ (dimChange env s0 f).2 ∧
        (dimChange env s0 f).1.texNV12 = some ⟨f.width, f.height, none⟩) ∧
    (s0.texI420.isSome = true →
        Ev.destroyI420 ∈ (dimChange env s0 f).2 ∧
        (dimChange env s0 f).1.texI420 = some ⟨f.width, f.height, none⟩) ∧
    (s0.sws.isSome = true → Ev.freeSws ∈ (dimChange env s0 f).2) ∧
    (∀ t, (dimChange env s0 f).1.texNV12 = some t → t.w = f.width ∧ t.h = f.height) ∧
    (∀ t, (dimChange env s0 f).1.texI420 = some t → t.w = f.width ∧ t.h = f.height) ∧
    (∃ rest, (processFrame args wc env s0 f).2.1 = (dimChange env s0 f).2 ++ rest) := by
  have hcond : (f.width ≠ s0.W ∨ f.height ≠ s0.H) ∧ 0 < f.width ∧ 0 < f.height :=
    ⟨hne, hw, hh⟩
  refine ⟨?_, ?_, ?_, ?_, ?_, ?_, ?_, ?_, ?_,
    processFrame_events_start_with_dimChange args wc env s0 f⟩ <;>
    cases hTN : s0.texNV12 <;> cases hTI : s0.texI420 <;>
    simp [dimChange, hcond, hN, hI, hTN, hTI]

/-- C3 witness: a 1280x720 picture arriving while the state is at
1920x1080 with both textures and a conversion context allocated forces
recreation at 1280x720 and invalidation of the context. -/
theorem C3_dimension_change_witness :
    (dimChange envOK sTex fNV).1.W = 1280 ∧
    (dimChange envOK sTex fNV).1.sws = none ∧
    Ev.destroyNV12 ∈ (dimChange envOK sTex fNV).2 ∧
    (dimChange envOK sTex fNV).1.texNV12 = some ⟨1280, 720, none⟩ ∧
    Ev.freeSws ∈ (dimChange envOK sTex fNV).2 := by
  obtain ⟨h1, _, h3, _, h5, _, h7, _⟩ :=
    C3_dimension_change args0 false envOK sTex fNV (by decide) (by decide)
      (by decide) rfl rfl
  obtain ⟨h5a, h5b⟩ := h5 rfl
  exact ⟨h1, h3, h5a, h5b, h7 rfl⟩

/-- C5 counterexample: `fNV` is an NV12 picture whose fast-path texture
update succeeds, yet because the gate drops it (elapsed 5000 µs < 33333
µs at 30 fps with drop-when-ahead), the iteration falls through to the
conversion path and a pixel-format conversion step does run for it,
contradicting "no pixel-format conversion step runs for that picture". -/
theorem C5_counterexample :
    fNV.format = PixFmt.nv12 ∧
    Ev.swsRun fNV ∈ (processFrame args30 false envDrop sBase fNV).2.1 := by
  refine ⟨rfl, ?_⟩
  norm_num [processFrame, dimChange, realize, fastPath, fastPathUpdate, slowPath,
    slowPathSws, slowPathScale, pacingGate, targetInterval, args30, envDrop, sBase, fNV]

/-- C5 (amended): for an NV12 picture (same dimensions as the current
state), when the texture update succeeds the surface receives exactly
the picture's first two planes byte-for-byte; and when additionally the
Pacing Gate decides to present, the picture is presented and no
pixel-format conversion step runs for it in that iteration.  (If the
update fails or the gate drops, the iteration instead falls through to
the conversion path.) -/
theorem C5_fast_path_byte_identical (args : Args) (wc : Bool) (env : Env) (s0 : PState)
    (f : Frame)
    (hfmt : f.format = PixFmt.nv12)
    (hW : f.width = s0.W) (hH : f.height = s0.H)
    (halloc : env.alloc_nv12_ok = true)
    (hupd : env.update_nv_ok = true)
    (hgate : (pacingGate args.target_fps args.drop_when_ahead s0.last_present_us
        env.now1).present = true) :
    (∃ t, (processFrame args wc env s0 f).1.texNV12 = some t ∧
        t.content = some (f.data.getD 0 ⟨[], 0⟩, f.data.getD 1 ⟨[], 0⟩)) ∧
    Ev.updateNV (f.data.getD 0 ⟨[], 0⟩) (f.data.getD 1 ⟨[], 0⟩) ∈
      (processFrame args wc env s0 f).2.1 ∧
    (∀ g, Ev.swsRun g ∉ (processFrame args wc env s0 f).2.1) ∧
    Ev.renderPresent ∈ (processFrame args wc env s0 f).2.1 := by
  have hdim : dimChange env s0 f = (s0, []) := by
    simp [dimChange, hW, hH]
  have hre : realize wc env.transfer_ok env.sw_frame f = some (f, []) := by
    simp [realize, hfmt]
  refine ⟨?_, ?_, ?_, ?_⟩ <;>
    cases hTN : s0.texNV12 <;>
    simp [processFrame, hdim, hre, fastPath, fastPathUpdate, hfmt, halloc, hupd, hgate,
      hTN]

/-- C5 witness: the fixture NV12 picture presented through the fast path
(gate reads 40000 µs at 30 fps) lands byte-identically on the NV12
texture with no conversion event. -/
theorem C5_fast_path_byte_identical_witness :
    (∃ t, (processFrame args30 false envOK sBase fNV).1.texNV12 = some t ∧
        t.content = some (fNV.data.getD 0 ⟨[], 0⟩, fNV.data.getD 1 ⟨[], 0⟩)) ∧
    (∀ g, Ev.swsRun g ∉ (processFrame args30 false envOK sBase fNV).2.1) := by
  obtain ⟨h1, _, h3, _⟩ :=
    C5_fast_path_byte_identical args30 false envOK sBase fNV rfl rfl rfl rfl rfl
      (by norm_num [pacingGate, targetInterval, args30, envOK, sBase])
  exact ⟨h1, h3⟩

/-- C9: an NV12 picture (same dimensions as the current state) whose
texture update succeeds but which the fast-path gate drops falls through
to the slow path in the same iteration: the converter runs on that very
picture, the pacing decision is evaluated a second time against the
fresh clock reading `now2`, and when that second decision presents, the
picture is presented through the conversion path with the
last-presentation timestamp set to the slow-path clock reading. -/
theorem C9_fast_drop_falls_through (args : Args) (wc : Bool) (env : Env) (s0 : PState)
    (f : Frame)
    (hfmt : f.format = PixFmt.nv12)
    (hW : f.width = s0.W) (hH : f.height = s0.H)
    (halloc : env.alloc_nv12_ok = true)
    (hupd : env.update_nv_ok = true)
    (hg1 : (pacingGate args.target_fps args.drop_when_ahead s0.last_present_us
        env.now1).present = false)
    (hI : env.alloc_i420_ok = true)
    (hget : env.sws_get_ok = true)
    (hscale : env.sws_scale_ok = true)
    (hg2 : (pacingGate args.target_fps args.drop_when_ahead s0.last_present_us
        env.now2).present = true) :
    Ev.swsRun f ∈ (processFrame args wc env s0 f).2.1 ∧
    Ev.renderPresent ∈ (processFrame args wc env s0 f).2.1 ∧
    (processFrame args wc env s0 f).1.last_present_us = env.pt2 := by
  have hdim : dimChange env s0 f = (s0, []) := by
    simp [dimChange, hW, hH]
  have hre : realize wc env.transfer_ok env.sw_frame f = some (f, []) := by
    simp [realize, hfmt]
  refine ⟨?_, ?_, ?_⟩ <;>
    cases hTN : s0.texNV12 <;> cases hTI : s0.texI420 <;> cases hS : s0.sws <;>
    simp [processFrame, hdim, hre, fastPath, fastPathUpdate, slowPath, slowPathSws,
      slowPathScale, hfmt, halloc, hupd, hg1, hI, hget, hscale, hg2, hTN, hTI, hS]

/-- C9 witness: at 30 fps with drop-when-ahead, the fixture picture is
dropped by the fast-path gate at 5000 µs, converted, and presented by
the slow-path gate at 40000 µs, with the timestamp set to 40001 µs. -/
theorem C9_fast_drop_falls_through_witness :
    Ev.swsRun fNV ∈ (processFrame args30 false envDropThen sBase fNV).2.1 ∧
    Ev.renderPresent ∈ (processFrame args30 false envDropThen sBase fNV).2.1 ∧
    (processFrame args30 false envDropThen sBase fNV).1.last_present_us = 40001 :=
  C9_fast_drop_falls_through args30 false envDropThen sBase fNV rfl rfl rfl rfl rfl
    (by norm_num [pacingGate, targetInterval, args30, envDropThen, sBase])
    rfl rfl rfl
    (by norm_num [pacingGate, targetInterval, args30, envDropThen, sBase])
